import Mathlib

/-!
Shallow embedding of the geodetic transformation engine of
`flood_tool/geo.py` (lat/long to Cartesian conversion, the fixed
six-step inverse iteration, the Helmert similarity transform, the
WGS84 to OSGB36 datum composition and the Transverse Mercator grid
projection), together with theorems settling the frozen claims about
it.  Floating point arithmetic is modelled by exact real arithmetic;
numpy 1-D arrays are modelled by lists of reals and their broadcasting
and reshape rules are made explicit.
-/

namespace FloodTool

open Real

/-- Embeds `rad(deg, min=0, sec=0)` from geo.py: degrees (with optional
arc minutes / arc seconds) to radians.  Call sites that use the Python
defaults pass explicit zeros. -/
noncomputable def rad (d m s : ℝ) : ℝ := (d + m / 60 + s / 3600) * (π / 180)

/-- Embeds the plain branch of `deg(rad)` from geo.py: radians to degrees. -/
noncomputable def deg (r : ℝ) : ℝ := r * (180 / π)

/-- Embeds Python `round(x, 4)`: rounding to four decimal places.
Python rounds half to even while Mathlib `round` rounds half up; the
two agree except at exact ties, and every theorem below only uses the
bound that the result is within half an ulp of the argument, which
holds for both tie conventions. -/
noncomputable def round4 (x : ℝ) : ℝ := ((round (x * 10000) : ℤ) : ℝ) / 10000

/-- Embeds the `dms=True` branch of `deg` from geo.py:
`d = rad*(180/pi); m = 60*(d % 1); return floor(d), floor(m), round(60*(m % 1), 4)`.
Python `t % 1.0` on reals is the fractional part `Int.fract t`. -/
noncomputable def degDMS (r : ℝ) : ℝ × ℝ × ℝ :=
  let d : ℝ := r * (180 / π)
  let m : ℝ := 60 * Int.fract d
  (((⌊d⌋ : ℤ) : ℝ), ((⌊m⌋ : ℤ) : ℝ), round4 (60 * Int.fract m))

/-- Embeds the `Ellipsoid` class of geo.py.  The derived quantities
`n` and `e2` are definitions below rather than stored fields; `H` is
set to `0` by the `Ellipsoid` constructor and overridden by `Datum`. -/
structure Ellipsoid where
  a : ℝ
  b : ℝ
  F_0 : ℝ
  H : ℝ

/-- Derived field `n = (a-b)/(a+b)` computed by `Ellipsoid.__init__`. -/
noncomputable def Ellipsoid.n (e : Ellipsoid) : ℝ := (e.a - e.b) / (e.a + e.b)

/-- Derived field `e2 = (a**2-b**2)/a**2` computed by `Ellipsoid.__init__`. -/
noncomputable def Ellipsoid.e2 (e : Ellipsoid) : ℝ := (e.a ^ 2 - e.b ^ 2) / e.a ^ 2

/-- The `Ellipsoid(a, b, F_0)` constructor, which sets `H = 0`. -/
def mkEllipsoid (a b F_0 : ℝ) : Ellipsoid := ⟨a, b, F_0, 0⟩

/-- Embeds the `Datum` class of geo.py: an `Ellipsoid` plus projection
origin, false easting/northing and height offset `H`. -/
structure Datum extends Ellipsoid where
  phi_0 : ℝ
  lam_0 : ℝ
  E_0 : ℝ
  N_0 : ℝ

/-- The module constant `osgb36` of geo.py. -/
noncomputable def osgb36 : Datum :=
  { a := 6377563.396
    b := 6356256.910
    F_0 := 0.9996012717
    H := 24.7
    phi_0 := rad 49 0 0
    lam_0 := rad (-2) 0 0
    E_0 := 400000
    N_0 := -100000 }

/-- The module constant `wgs84` of geo.py (an `Ellipsoid`, hence `H = 0`). -/
noncomputable def wgs84 : Ellipsoid := mkEllipsoid 6378137 6356752.3142 0.9996

/-- Embeds `lat_long_to_xyz` of geo.py on a single latitude/longitude
pair (the array version is elementwise, see `lat_long_to_xyz_vec`).
The Python signature is `lat_long_to_xyz(latitude, longitude,
radians=False, datum=osgb36)`; defaults are passed explicitly here. -/
noncomputable def lat_long_to_xyz (latitude longitude : ℝ) (radians : Bool)
    (datum : Ellipsoid) : ℝ × ℝ × ℝ :=
  let lat := if radians then latitude else rad latitude 0 0
  let long := if radians then longitude else rad longitude 0 0
  let nu := datum.a * datum.F_0 / sqrt (1 - datum.e2 * sin lat ^ 2)
  ((nu + datum.H) * cos lat * cos long,
   (nu + datum.H) * cos lat * sin long,
   ((1 - datum.e2) * nu + datum.H) * sin lat)

/-- Embeds numpy `arctan2(y, x)` (four-quadrant arctangent).  Real
numbers have no signed zero, so the `x = -0.0` branches of the IEEE
function collapse into the `x = 0` cases. -/
noncomputable def arctan2 (y x : ℝ) : ℝ :=
  if 0 < x then arctan (y / x)
  else if x < 0 ∧ 0 ≤ y then arctan (y / x) + π
  else if x < 0 ∧ y < 0 then arctan (y / x) - π
  else if x = 0 ∧ 0 < y then π / 2
  else if x = 0 ∧ y < 0 then -(π / 2)
  else 0

/-- The quantity `nu` recomputed in each pass of the loop of
`xyz_to_lat_long`: `datum.a*datum.F_0/sqrt(1-datum.e2*sin(lat)**2)`. -/
noncomputable def nuOf (datum : Ellipsoid) (lat : ℝ) : ℝ :=
  datum.a * datum.F_0 / sqrt (1 - datum.e2 * sin lat ^ 2)

/-- The quantity `dnu` of the loop of `xyz_to_lat_long`:
`-datum.a*datum.F_0*cos(lat)*sin(lat)/(1-datum.e2*sin(lat)**2)**1.5`.
The Python exponent `1.5` is a real power. -/
noncomputable def dnuOf (datum : Ellipsoid) (lat : ℝ) : ℝ :=
  -datum.a * datum.F_0 * cos lat * sin lat /
    (1 - datum.e2 * sin lat ^ 2) ^ (1.5 : ℝ)

/-- The residual `f0` of the loop of `xyz_to_lat_long`:
`(z + datum.e2*nu*sin(lat))/p - tan(lat)`. -/
noncomputable def f0Of (datum : Ellipsoid) (z p lat : ℝ) : ℝ :=
  (z + datum.e2 * nuOf datum lat * sin lat) / p - tan lat

/-- The divisor `f1` of the loop of `xyz_to_lat_long`, embedded
verbatim from the source:
`datum.e2*(nu**cos(latitude)+dnu*sin(latitude))/p - 1.0/cos(latitude)**2`.
Note that the first summand is the real power `nu ** cos(lat)`, not a
product. -/
noncomputable def f1Of (datum : Ellipsoid) (p lat : ℝ) : ℝ :=
  datum.e2 * (nuOf datum lat ^ cos lat + dnuOf datum lat * sin lat) / p -
    1 / cos lat ^ 2

/-- The derivative of `f0Of` with respect to `lat` as stated by the
specification: `e2*(dnu*sin(lat) + nu*cos(lat))/p - 1/cos(lat)^2`.
This is the spec-side quantity against which `f1Of` is compared. -/
noncomputable def f1Deriv (datum : Ellipsoid) (p lat : ℝ) : ℝ :=
  datum.e2 * (dnuOf datum lat * sin lat + nuOf datum lat * cos lat) / p -
    1 / cos lat ^ 2

/-- One pass of the `for _ in range(6)` loop of `xyz_to_lat_long`:
`latitude -= f0/f1`. -/
noncomputable def newtonStep (datum : Ellipsoid) (z p lat : ℝ) : ℝ :=
  lat - f0Of datum z p lat / f1Of datum p lat

/-- The `for _ in range(6)` loop of `xyz_to_lat_long`, instrumented
with a pass counter: folds `newtonStep` over the six loop indices,
starting from the initial latitude guess, and counts the passes. -/
noncomputable def newtonLoop (datum : Ellipsoid) (z p lat0 : ℝ) : ℝ × ℕ :=
  (List.range 6).foldl (fun st _ => (newtonStep datum z p st.1, st.2 + 1)) (lat0, 0)

/-- Embeds `xyz_to_lat_long` of geo.py on a single Cartesian point
(the array version is elementwise over broadcast inputs, see
`xyz_to_lat_long_vec`). -/
noncomputable def xyz_to_lat_long (x y z : ℝ) (radians : Bool)
    (datum : Ellipsoid) : ℝ × ℝ :=
  let p := sqrt (x ^ 2 + y ^ 2)
  let longitude := arctan2 y x
  let lat0 := arctan2 z (p * (1 - datum.e2))
  let latitude := (newtonLoop datum z p lat0).1
  if radians then (latitude, longitude) else (deg latitude, deg longitude)

/-- Embeds the `HelmertTransform` class of geo.py: a stored translation
column `T` and the stored matrix `M`. -/
structure HelmertTransform where
  T : Fin 3 → ℝ
  M : Matrix (Fin 3) (Fin 3) ℝ

/-- Embeds `HelmertTransform.__init__(s, rx, ry, rz, T)`:
`M = [[1+s, -rz, ry], [rz, 1+s, -rx], [-ry, rx, 1+s]]`. -/
noncomputable def HelmertTransform.ofParams (s rx ry rz : ℝ) (T : Fin 3 → ℝ) :
    HelmertTransform :=
  ⟨T, !![1 + s, -rz, ry; rz, 1 + s, -rx; -ry, rx, 1 + s]⟩

/-- The skew matrix `S = [[s,-rz,ry],[rz,s,-rx],[-ry,rx,s]]` named by
the specification; spec-side definition used to compare with the
stored rotation matrix. -/
noncomputable def skewS (s rx ry rz : ℝ) : Matrix (Fin 3) (Fin 3) ℝ :=
  !![s, -rz, ry; rz, s, -rx; -ry, rx, s]

/-- Embeds `HelmertTransform.__call__` on an input that is already a
3-by-N point set (for such input `X.reshape((3,-1))` is the identity):
`T + M.dot(X)`, with the three-term dot product written out as numpy
computes it. -/
noncomputable def HelmertTransform.call {N : ℕ} (h : HelmertTransform)
    (P : Matrix (Fin 3) (Fin N) ℝ) : Matrix (Fin 3) (Fin N) ℝ :=
  Matrix.of fun i j =>
    h.T i + (h.M i 0 * P 0 j + h.M i 1 * P 1 j + h.M i 2 * P 2 j)

/-- A numpy ndarray restricted to what `HelmertTransform.__call__`
observes: its shape and its row-major flattened data. -/
structure NPArray where
  shape : List ℕ
  data : List ℝ

/-- Embeds `HelmertTransform.__call__` on an arbitrary array:
`X.reshape((3,-1))` succeeds exactly when the total element count is a
multiple of 3, reinterpreting the row-major data as 3 rows of length
`N = size/3`; the result `T + M.dot(...)` is a `(3, N)` array.  A
failing reshape (numpy `ValueError`) is `none`. -/
noncomputable def HelmertTransform.callArr (h : HelmertTransform) (X : NPArray) :
    Option NPArray :=
  if X.data.length % 3 = 0 then
    let N := X.data.length / 3
    let row : Fin 3 → List ℝ := fun i =>
      (List.range N).map fun j =>
        h.T i + (h.M i 0 * X.data.getD j 0 +
                 h.M i 1 * X.data.getD (N + j) 0 +
                 h.M i 2 * X.data.getD (2 * N + j) 0)
    some ⟨[3, N], row 0 ++ row 1 ++ row 2⟩
  else none

/-- Embeds `HelmertTransform.__call__` on a single `(x, y, z)` triple
(shape `(3,)`, reshaped by the source to one column): the value of the
single output column. -/
noncomputable def helmertPoint (h : HelmertTransform) (v : ℝ × ℝ × ℝ) : ℝ × ℝ × ℝ :=
  (h.T 0 + (h.M 0 0 * v.1 + h.M 0 1 * v.2.1 + h.M 0 2 * v.2.2),
   h.T 1 + (h.M 1 0 * v.1 + h.M 1 1 * v.2.1 + h.M 1 2 * v.2.2),
   h.T 2 + (h.M 2 0 * v.1 + h.M 2 1 * v.2.1 + h.M 2 2 * v.2.2))

/-- The module constant `WGS84toOSGB36transform` of geo.py. -/
noncomputable def WGS84toOSGB36transform : HelmertTransform :=
  HelmertTransform.ofParams (20.4894e-6)
    (-(rad 0 0 0.1502)) (-(rad 0 0 0.2470)) (-(rad 0 0 0.8421))
    ![(-446.448), 125.157, (-542.060)]

/-- The intermediate Cartesian point of `WGS84toOSGB36`: the source
calls `lat_long_to_xyz(latitude, longitude, radians)` with no datum
argument, so the default `datum=osgb36` is used here. -/
noncomputable def WGS84toOSGB36sourceXYZ (latitude longitude : ℝ)
    (radians : Bool) : ℝ × ℝ × ℝ :=
  lat_long_to_xyz latitude longitude radians osgb36.toEllipsoid

/-- Embeds `WGS84toOSGB36` of geo.py on a single pair: forward
conversion (with the default datum, see `WGS84toOSGB36sourceXYZ`),
Helmert transform, inverse conversion (again with the default datum). -/
noncomputable def WGS84toOSGB36 (latitude longitude : ℝ) (radians : Bool) : ℝ × ℝ :=
  let xyz := WGS84toOSGB36sourceXYZ latitude longitude radians
  let xyz2 := helmertPoint WGS84toOSGB36transform xyz
  xyz_to_lat_long xyz2.1 xyz2.2.1 xyz2.2.2 radians osgb36.toEllipsoid

/-- The local variable `nu` of `get_easting_northing_from_lat_long`:
`(osgb36.a*osgb36.F_0)/sqrt(1 - osgb36.e2*sin(latitude)**2)`. -/
noncomputable def nuOS (lat : ℝ) : ℝ :=
  osgb36.a * osgb36.F_0 / sqrt (1 - osgb36.e2 * sin lat ^ 2)

/-- The local variable `rho` of `get_easting_northing_from_lat_long`:
`(osgb36.a*osgb36.F_0*(1-osgb36.e2))/((1-osgb36.e2*sin(latitude)**2)**(3/2))`. -/
noncomputable def rhoOS (lat : ℝ) : ℝ :=
  osgb36.a * osgb36.F_0 * (1 - osgb36.e2) /
    (1 - osgb36.e2 * sin lat ^ 2) ^ ((3 : ℝ) / 2)

/-- The local variable `heta` of `get_easting_northing_from_lat_long`:
`sqrt(nu/rho - 1)`. -/
noncomputable def hetaOS (lat : ℝ) : ℝ := sqrt (nuOS lat / rhoOS lat - 1)

/-- The meridional arc `M` of `get_easting_northing_from_lat_long`:
the four-term series in the flattening ratio `n`, scaled by
`osgb36.b*osgb36.F_0`. -/
noncomputable def MOS (lat : ℝ) : ℝ :=
  osgb36.b * osgb36.F_0 *
    ((1 + osgb36.n + (5 / 4) * osgb36.n ^ 2 + (5 / 4) * osgb36.n ^ 3) *
        (lat - osgb36.phi_0) -
      (3 * osgb36.n + 3 * osgb36.n ^ 2 + (21 / 8) * osgb36.n ^ 3) *
        sin (lat - osgb36.phi_0) * cos (lat + osgb36.phi_0) +
      ((15 / 8) * osgb36.n ^ 2 + (15 / 8) * osgb36.n ^ 3) *
        sin (2 * (lat - osgb36.phi_0)) * cos (2 * (lat + osgb36.phi_0)) -
      (35 / 24) * osgb36.n ^ 3 *
        sin (3 * (lat - osgb36.phi_0)) * cos (3 * (lat + osgb36.phi_0)))

/-- Local variable `I = M + osgb36.N_0` of the projection. -/
noncomputable def term_I (lat : ℝ) : ℝ := MOS lat + osgb36.N_0

/-- Local variable `II = (nu/2)*sin(lat)*cos(lat)` of the projection. -/
noncomputable def term_II (lat : ℝ) : ℝ := nuOS lat / 2 * sin lat * cos lat

/-- Local variable `III` of the projection, with `heta**2` exactly as
the source computes it (square of the stored `sqrt`). -/
noncomputable def term_III (lat : ℝ) : ℝ :=
  nuOS lat / 24 * sin lat * cos lat ^ 3 * (5 - tan lat ^ 2 + 9 * hetaOS lat ^ 2)

/-- Local variable `IIIA` of the projection. -/
noncomputable def term_IIIA (lat : ℝ) : ℝ :=
  nuOS lat / 720 * sin lat * cos lat ^ 5 * (61 - 58 * tan lat ^ 2 + tan lat ^ 4)

/-- Local variable `IV = nu*cos(lat)` of the projection. -/
noncomputable def term_IV (lat : ℝ) : ℝ := nuOS lat * cos lat

/-- Local variable `V = (nu/6)*cos(lat)**3*((nu/rho) - tan(lat)**2)`. -/
noncomputable def term_V (lat : ℝ) : ℝ :=
  nuOS lat / 6 * cos lat ^ 3 * (nuOS lat / rhoOS lat - tan lat ^ 2)

/-- Local variable `VI` of the projection, with `heta**2` exactly as
the source computes it. -/
noncomputable def term_VI (lat : ℝ) : ℝ :=
  nuOS lat / 120 * cos lat ^ 5 *
    (5 - 18 * tan lat ^ 2 + tan lat ^ 4 + 14 * hetaOS lat ^ 2 -
      58 * tan lat ^ 2 * hetaOS lat ^ 2)

/-- Embeds `get_easting_northing_from_lat_long` of geo.py on a single
pair: convert to radians if needed, run the WGS84 to OSGB36 datum
composition, then evaluate the Transverse Mercator series on the
OSGB36 datum constants. -/
noncomputable def get_easting_northing_from_lat_long (latitude longitude : ℝ)
    (radians : Bool) : ℝ × ℝ :=
  let lat1 := if radians then latitude else rad latitude 0 0
  let lon1 := if radians then longitude else rad longitude 0 0
  let ll := WGS84toOSGB36 lat1 lon1 true
  let lat := ll.1
  let long := ll.2
  let dL := long - osgb36.lam_0
  (osgb36.E_0 + term_IV lat * dL + term_V lat * dL ^ 3 + term_VI lat * dL ^ 5,
   term_I lat + term_II lat * dL ^ 2 + term_III lat * dL ^ 4 +
     term_IIIA lat * dL ^ 6)

/-- Spec-side variant of `term_III` following the wording of the
specification, with `eta2 = nu/rho - 1` in place of the squared
square root. -/
noncomputable def term_III_spec (lat : ℝ) : ℝ :=
  nuOS lat / 24 * sin lat * cos lat ^ 3 *
    (5 - tan lat ^ 2 + 9 * (nuOS lat / rhoOS lat - 1))

/-- Spec-side variant of `term_VI` with `eta2 = nu/rho - 1`. -/
noncomputable def term_VI_spec (lat : ℝ) : ℝ :=
  nuOS lat / 120 * cos lat ^ 5 *
    (5 - 18 * tan lat ^ 2 + tan lat ^ 4 + 14 * (nuOS lat / rhoOS lat - 1) -
      58 * tan lat ^ 2 * (nuOS lat / rhoOS lat - 1))

/-- Spec-side projection following the wording of the specification
(section 4.5): datum composition, then
`easting = E_0 + IV*dL + V*dL^3 + VI*dL^5` and
`northing = I + II*dL^2 + III*dL^4 + IIIA*dL^6` with
`eta2 = nu/rho - 1`. -/
noncomputable def projectSpec (latitude longitude : ℝ) (radians : Bool) : ℝ × ℝ :=
  let lat1 := if radians then latitude else rad latitude 0 0
  let lon1 := if radians then longitude else rad longitude 0 0
  let ll := WGS84toOSGB36 lat1 lon1 true
  let lat := ll.1
  let long := ll.2
  let dL := long - osgb36.lam_0
  (osgb36.E_0 + term_IV lat * dL + term_V lat * dL ^ 3 +
     term_VI_spec lat * dL ^ 5,
   term_I lat + term_II lat * dL ^ 2 + term_III_spec lat * dL ^ 4 +
     term_IIIA lat * dL ^ 6)

/-- Length of the numpy broadcast of two 1-D arrays of lengths `n` and
`m` (meaningful when the lengths are compatible, i.e. equal or one of
them is 1): a length-1 array is stretched to the other length. -/
def bjoin (n m : ℕ) : ℕ := if n = 1 then m else n

/-- Materialises numpy broadcasting of a 1-D array to length `N`: a
length-1 array is repeated, any other array is left as is. -/
noncomputable def bexpand (xs : List ℝ) (N : ℕ) : List ℝ :=
  if xs.length = 1 then List.replicate N xs.headI else xs

/-- Elementwise combination of three equal-length lists. -/
def zipWith3 (f : ℝ → ℝ → ℝ → ℝ) : List ℝ → List ℝ → List ℝ → List ℝ
  | a :: as, b :: bs, c :: cs => f a b c :: zipWith3 f as bs cs
  | _, _, _ => []

/-- Embeds `lat_long_to_xyz` of geo.py on 1-D array arguments.  The
elementwise formulas broadcast a length-1 array, but the returned
`array((x, y, z))` stacks the three rows, and the z row
`((1-e2)*nu+H)*sin(latitude)` depends only on latitude, so it keeps
the latitude length while x and y take the broadcast length.  Hence a
clean 3-row result is produced exactly when the two lengths are equal
or the longitude has length 1 (a length-1 longitude is silently
stretched to the latitude length); a length-1 latitude with a longer
longitude makes the stack ragged, which raises on modern numpy and
degenerates to an object array on legacy numpy, and any other unequal
lengths fail in the elementwise operations — all failures modelled as
`none`. -/
noncomputable def lat_long_to_xyz_vec (lats longs : List ℝ) (radians : Bool)
    (datum : Ellipsoid) : Option (List (ℝ × ℝ × ℝ)) :=
  if lats.length = longs.length ∨ longs.length = 1 then
    some (List.zipWith (fun la lo => lat_long_to_xyz la lo radians datum)
      lats (bexpand longs lats.length))
  else none

/-- Embeds `xyz_to_lat_long` of geo.py on 1-D array arguments with
numpy broadcasting.  The longitude `arctan2(y, x)` broadcasts `x` and
`y`; the latitude iteration additionally broadcasts `z` against their
join.  Incompatible lengths raise, modelled as `none`; the returned
latitude and longitude arrays may have different lengths. -/
noncomputable def xyz_to_lat_long_vec (x y z : List ℝ) (radians : Bool)
    (datum : Ellipsoid) : Option (List ℝ × List ℝ) :=
  if (x.length = y.length ∨ x.length = 1 ∨ y.length = 1) ∧
      (z.length = bjoin x.length y.length ∨ z.length = 1 ∨
        bjoin x.length y.length = 1) then
    let N2 := bjoin x.length y.length
    let N := bjoin z.length N2
    some
      (zipWith3 (fun a b c => (xyz_to_lat_long a b c radians datum).1)
        (bexpand x N) (bexpand y N) (bexpand z N),
       List.zipWith
         (fun b a => if radians then arctan2 b a else deg (arctan2 b a))
         (bexpand y N2) (bexpand x N2))
  else none

/-- Spec-side closed form for the forward conversion, following the
wording of the specification (section 4.2): the prime-vertical radius
of curvature `nu` and the three Cartesian components. -/
noncomputable def geographicToCartesianSpec (lat long : ℝ) (e : Ellipsoid) :
    ℝ × ℝ × ℝ :=
  let nu := e.a * e.F_0 / sqrt (1 - e.e2 * sin lat ^ 2)
  ((nu + e.H) * cos lat * cos long,
   (nu + e.H) * cos lat * sin long,
   ((1 - e.e2) * nu + e.H) * sin lat)

/-- C7: a HelmertTransform built from scale s, rotations rx, ry, rz and
translation T has rotation matrix exactly I + S with
S = [[s,-rz,ry],[rz,s,-rx],[-ry,rx,s]], applying it to a 3-by-N point
set returns exactly T + (I+S)*points, and with all parameters zero
every point is returned unchanged. -/
theorem helmert_rotation_and_apply (s rx ry rz : ℝ) (T : Fin 3 → ℝ) :
    (HelmertTransform.ofParams s rx ry rz T).M = 1 + skewS s rx ry rz ∧
    (∀ (N : ℕ) (P : Matrix (Fin 3) (Fin N) ℝ),
      (HelmertTransform.ofParams s rx ry rz T).call P =
        (Matrix.of fun i (_ : Fin N) => T i) + (1 + skewS s rx ry rz) * P) ∧
    (∀ (N : ℕ) (P : Matrix (Fin 3) (Fin N) ℝ),
      (HelmertTransform.ofParams 0 0 0 0 (fun _ => 0)).call P = P) := by
  have hT : ∀ s1 rx1 ry1 rz1 T1, (HelmertTransform.ofParams s1 rx1 ry1 rz1 T1).T = T1 :=
    fun _ _ _ _ _ => rfl
  have hM : (HelmertTransform.ofParams s rx ry rz T).M = 1 + skewS s rx ry rz := by
    ext i j
    fin_cases i <;> fin_cases j <;>
      simp [HelmertTransform.ofParams, skewS, Matrix.one_apply,
        Matrix.vecHead, Matrix.vecTail]
  refine ⟨hM, ?_, ?_⟩
  · intro N P
    ext i j
    rw [Matrix.add_apply, ← hM]
    simp [HelmertTransform.call, Matrix.mul_apply, Fin.sum_univ_three, hT]
  · intro N P
    have hM0 : (HelmertTransform.ofParams 0 0 0 0 (fun _ => 0)).M = 1 := by
      ext i j
      fin_cases i <;> fin_cases j <;>
        simp [HelmertTransform.ofParams, Matrix.one_apply,
          Matrix.vecHead, Matrix.vecTail]
    ext i j
    have hmul : ((HelmertTransform.ofParams 0 0 0 0 (fun _ => 0)).M * P) i j = P i j := by
      rw [hM0, Matrix.one_mul]
    rw [← hmul]
    simp [HelmertTransform.call, Matrix.mul_apply, Fin.sum_univ_three, hT]

/-- The loop of `xyz_to_lat_long` computes the six-fold iterate of the
correction step and its pass counter is 6 whatever the input values. -/
lemma newtonLoop_eq (datum : Ellipsoid) (z p lat0 : ℝ) :
    newtonLoop datum z p lat0 = ((newtonStep datum z p)^[6] lat0, 6) := by
  simp [newtonLoop, List.range_succ, Function.iterate_succ_apply]

/-- C8: xyz_to_lat_long performs exactly 6 latitude correction steps
for every input, independent of input magnitude or closeness to a
solution: the pass counter of the loop is 6 for all inputs, the
resulting latitude is the six-fold (not seven-fold) iterate of the
step map applied to the initial guess, and the function value is
determined by that six-fold iterate. -/
theorem xyz_to_lat_long_six_steps (datum : Ellipsoid) (x y z p lat0 : ℝ) :
    (newtonLoop datum z p lat0).2 = 6 ∧
    (newtonLoop datum z p lat0).1 = (newtonStep datum z p)^[6] lat0 ∧
    xyz_to_lat_long x y z true datum =
      ((newtonStep datum z (sqrt (x ^ 2 + y ^ 2)))^[6]
          (arctan2 z (sqrt (x ^ 2 + y ^ 2) * (1 - datum.e2))),
        arctan2 y x) := by
  refine ⟨by rw [newtonLoop_eq], by rw [newtonLoop_eq], ?_⟩
  simp [xyz_to_lat_long, newtonLoop_eq]

/-- C1: the Cartesian point that WGS84toOSGB36 passes to the Helmert
transform is NOT the wgs84-ellipsoid conversion of the input: the
source omits the datum argument of lat_long_to_xyz, so the default
osgb36 datum (a = 6377563.396, H = 24.7) is used in place of the
wgs84 source ellipsoid (a = 6378137, H = 0).  At the concrete input
latitude = 0, longitude = 0 (degrees) the two conversions differ. -/
theorem WGS84toOSGB36_source_not_wgs84 :
    WGS84toOSGB36sourceXYZ 0 0 false ≠ lat_long_to_xyz 0 0 false wgs84 := by
  intro hEq
  have h1 := congrArg Prod.fst hEq
  simp only [WGS84toOSGB36sourceXYZ, lat_long_to_xyz, rad, osgb36, wgs84,
    mkEllipsoid, Ellipsoid.e2] at h1
  norm_num [Real.sqrt_one] at h1

/-- C2: the divisor f1 of the correction step of xyz_to_lat_long is
NOT the latitude derivative of the residual f0 named by the
specification: the source computes the real power nu ** cos(lat)
where the derivative has the product nu * cos(lat).  The two agree
only accidentally (for instance when cos(lat) = 1); at the loop state
lat = pi/2, p = 1 on the osgb36 datum they differ by e2 * nu^0 = e2,
which is nonzero. -/
theorem f1_not_derivative_of_f0 :
    f1Of osgb36.toEllipsoid 1 (π / 2) ≠ f1Deriv osgb36.toEllipsoid 1 (π / 2) := by
  have hcos : cos (π / 2) = 0 := Real.cos_pi_div_two
  have hsin : sin (π / 2) = 1 := Real.sin_pi_div_two
  simp only [f1Of, f1Deriv, dnuOf, nuOf, hcos, hsin]
  norm_num [Real.rpow_zero]
  intro h
  norm_num [osgb36, Ellipsoid.e2] at h

/-- C3 counterexample: unequal-length coordinate arrays are not always
rejected.  The concrete input of a length-2 latitude array and a
length-1 longitude array is silently broadcast by lat_long_to_xyz
(the single longitude is stretched to both latitudes, every output
row then having length 2) and a result is produced, contradicting the
claim that unequal-length inputs are rejected before any computation
and never broadcast. -/
theorem lat_long_to_xyz_vec_accepts_unequal :
    (lat_long_to_xyz_vec [0, 1] [0] false osgb36.toEllipsoid).isSome = true ∧
    [(0 : ℝ), 1].length ≠ [(0 : ℝ)].length := by
  constructor
  · simp [lat_long_to_xyz_vec]
  · simp

/-- C3 amended: shape handling of the three entry points is by numpy
broadcast, stacking and reshape rules, not a fail-fast precondition.
lat_long_to_xyz produces a 3-row result exactly when the two lengths
are equal or the longitude has length 1 (the length-1 longitude being
silently broadcast); a length-1 latitude with a longer longitude
fails only when the unequal-length output rows are stacked, after the
elementwise computation, and other unequal lengths fail inside the
elementwise operations.  xyz_to_lat_long accepts its three arrays
exactly when they are pairwise broadcast-compatible (length-1 arrays
silently broadcast); the Helmert transform accepts any input whose
total element count is a multiple of 3, silently reshaping it to 3
rows (so a point set that is not 3 rows is still accepted whenever
its size divides by 3). -/
theorem shape_acceptance_characterisation (lats longs x y z : List ℝ)
    (r : Bool) (e : Ellipsoid) (h : HelmertTransform) (X : NPArray) :
    ((lat_long_to_xyz_vec lats longs r e).isSome ↔
      (lats.length = longs.length ∨ longs.length = 1)) ∧
    ((xyz_to_lat_long_vec x y z r e).isSome ↔
      ((x.length = y.length ∨ x.length = 1 ∨ y.length = 1) ∧
        (z.length = bjoin x.length y.length ∨ z.length = 1 ∨
          bjoin x.length y.length = 1))) ∧
    ((h.callArr X).isSome ↔ X.data.length % 3 = 0) := by
  refine ⟨?_, ?_, ?_⟩
  · rw [lat_long_to_xyz_vec]
    split <;> simp_all
  · rw [xyz_to_lat_long_vec]
    split <;> simp_all
  · rw [HelmertTransform.callArr]
    split <;> simp_all

/-- C9: the Helmert transform call never raises for a numeric input
whose total element count is a multiple of 3 (its data is flattened
and reshaped to 3 rows), the result always has shape 3-by-N with
N = size/3, and in particular a flat length-3 vector comes back as a
3-by-1 column, not in its original shape. -/
theorem helmert_callArr_shape (h : HelmertTransform) (X : NPArray) (x y z : ℝ) :
    (h.callArr X).map NPArray.shape =
      (if X.data.length % 3 = 0 then some [3, X.data.length / 3] else none) ∧
    (h.callArr ⟨[3], [x, y, z]⟩).map NPArray.shape = some [3, 1] ∧
    NPArray.shape ⟨[3], [x, y, z]⟩ ≠ [3, 1] := by
  refine ⟨?_, ?_, by simp⟩
  · rw [HelmertTransform.callArr]
    split <;> simp_all
  · rw [HelmertTransform.callArr]
    norm_num

/-- Broadcasting a list to its own length is the identity. -/
lemma bexpand_self (xs : List ℝ) : bexpand xs xs.length = xs := by
  rw [bexpand]
  split
  · match xs, ‹xs.length = 1› with
    | [a], _ => rfl
  · rfl

/-- C5: lat_long_to_xyz is the exact closed form: with
nu = a*F_0/sqrt(1 - e2*sin(lat)^2) it returns
((nu+H)*cos(lat)*cos(long), (nu+H)*cos(lat)*sin(long),
((1-e2)*nu+H)*sin(lat)) for every latitude/longitude and every
ellipsoid or datum, degrees being converted to radians first when
radians is false, and it maps equal-length arrays elementwise. -/
theorem lat_long_to_xyz_closed_form (lat long : ℝ) (e : Ellipsoid) (r : Bool)
    (lats longs : List ℝ) (hlen : lats.length = longs.length) :
    lat_long_to_xyz lat long true e = geographicToCartesianSpec lat long e ∧
    lat_long_to_xyz lat long false e =
      geographicToCartesianSpec (rad lat 0 0) (rad long 0 0) e ∧
    lat_long_to_xyz_vec lats longs r e =
      some (List.zipWith (fun la lo => lat_long_to_xyz la lo r e) lats longs) := by
  refine ⟨rfl, rfl, ?_⟩
  rw [lat_long_to_xyz_vec, if_pos (Or.inl hlen), hlen, bexpand_self]

/-- Witness for C5 at the concrete input lat = 0, long = 0, the wgs84
ellipsoid, degree mode and the singleton arrays. -/
theorem lat_long_to_xyz_closed_form_witness :
    lat_long_to_xyz 0 0 true wgs84 = geographicToCartesianSpec 0 0 wgs84 ∧
    lat_long_to_xyz 0 0 false wgs84 =
      geographicToCartesianSpec (rad 0 0 0) (rad 0 0 0) wgs84 ∧
    lat_long_to_xyz_vec [0] [0] false wgs84 =
      some (List.zipWith (fun la lo => lat_long_to_xyz la lo false wgs84) [0] [0]) :=
  lat_long_to_xyz_closed_form 0 0 wgs84 false [0] [0] rfl

/-- The eccentricity squared of the osgb36 datum is positive. -/
lemma osgb36_e2_pos : 0 < osgb36.e2 := by
  norm_num [osgb36, Ellipsoid.e2]

/-- The eccentricity squared of the osgb36 datum is below one. -/
lemma osgb36_e2_lt_one : osgb36.e2 < 1 := by
  norm_num [osgb36, Ellipsoid.e2]

/-- The scaled semi-major axis of the osgb36 datum is positive. -/
lemma osgb36_aF0_pos : 0 < osgb36.a * osgb36.F_0 := by
  norm_num [osgb36]

/-- The radicand 1 - e2*sin(lat)^2 is positive on the osgb36 datum. -/
lemma osgb36_radicand_pos (lat : ℝ) : 0 < 1 - osgb36.e2 * sin lat ^ 2 := by
  nlinarith [Real.sin_sq_le_one lat, osgb36_e2_pos, osgb36_e2_lt_one,
    sq_nonneg (sin lat)]

/-- On the osgb36 datum the ratio nu/rho collapses to
(1 - e2*sin(lat)^2)/(1 - e2). -/
lemma nu_div_rho_eq (lat : ℝ) :
    nuOS lat / rhoOS lat = (1 - osgb36.e2 * sin lat ^ 2) / (1 - osgb36.e2) := by
  have hq : 0 < 1 - osgb36.e2 * sin lat ^ 2 := osgb36_radicand_pos lat
  have hsq : 0 < sqrt (1 - osgb36.e2 * sin lat ^ 2) := Real.sqrt_pos.mpr hq
  have h32 : (1 - osgb36.e2 * sin lat ^ 2) ^ ((3 : ℝ) / 2) =
      (1 - osgb36.e2 * sin lat ^ 2) * sqrt (1 - osgb36.e2 * sin lat ^ 2) := by
    rw [show (3 : ℝ) / 2 = 1 + 1 / 2 by norm_num, Real.rpow_add hq,
      Real.rpow_one, ← Real.sqrt_eq_rpow]
  have h1e2 : (0 : ℝ) < 1 - osgb36.e2 := by
    have := osgb36_e2_lt_one
    linarith
  have ha : osgb36.a ≠ 0 := by norm_num [osgb36]
  have hf : osgb36.F_0 ≠ 0 := by norm_num [osgb36]
  rw [nuOS, rhoOS, h32]
  field_simp
  ring

/-- The square the source takes of the stored heta recovers
nu/rho - 1, which is nonnegative on the osgb36 datum. -/
lemma hetaOS_sq (lat : ℝ) : hetaOS lat ^ 2 = nuOS lat / rhoOS lat - 1 := by
  rw [hetaOS, Real.sq_sqrt]
  rw [sub_nonneg, nu_div_rho_eq]
  have h1e2 : (0 : ℝ) < 1 - osgb36.e2 := by
    have := osgb36_e2_lt_one
    linarith
  rw [le_div_iff₀ h1e2, one_mul]
  nlinarith [Real.sin_sq_le_one lat, osgb36_e2_pos, sq_nonneg (sin lat)]

/-- C6: the projection returns
easting = E_0 + IV*dL + V*dL^3 + VI*dL^5 and
northing = I + II*dL^2 + III*dL^4 + IIIA*dL^6 with dL = long - lam_0,
where I is N_0 plus the four-term meridional-arc series scaled by
b*F_0, rho = a*F_0*(1-e2)/(1-e2*sin(lat)^2)^1.5 and
eta^2 = nu/rho - 1, all on the OSGB36 datum constants after the
WGS84-to-OSGB36 datum composition: the embedded source function
coincides with the spec-side projection built from those formulas. -/
theorem get_easting_northing_eq_projectSpec (latitude longitude : ℝ)
    (radians : Bool) :
    get_easting_northing_from_lat_long latitude longitude radians =
      projectSpec latitude longitude radians := by
  have h3 : ∀ lat, term_III lat = term_III_spec lat := fun lat => by
    rw [term_III, term_III_spec, hetaOS_sq]
  have h6 : ∀ lat, term_VI lat = term_VI_spec lat := fun lat => by
    rw [term_VI, term_VI_spec, hetaOS_sq]
  simp only [get_easting_northing_from_lat_long, projectSpec, h3, h6]

/-- The rounding of round4 moves its argument by at most half of 1e-4. -/
lemma round4_close (t : ℝ) : |round4 t - t| ≤ 1 / 20000 := by
  have h := abs_sub_round (t * 10000)
  rw [abs_le] at h ⊢
  constructor <;> · simp only [round4]; linarith [h.1, h.2]

/-- C10: the degrees-minutes-seconds decomposition reconstructs its
input for negative angles too: writing (d, m, s) for degDMS x,
d is the floor of x*180/pi (one below the integer part for negative
fractional angles), m and s are nonnegative, and d + m/60 + s/3600
differs from x*180/pi only by the 4-decimal rounding of s, hence by
at most (1/2)*1e-4/3600. -/
theorem degDMS_reconstruction (x : ℝ) :
    (degDMS x).1 = ((⌊x * (180 / π)⌋ : ℤ) : ℝ) ∧
    0 ≤ (degDMS x).2.1 ∧ 0 ≤ (degDMS x).2.2 ∧
    |((degDMS x).1 + (degDMS x).2.1 / 60 + (degDMS x).2.2 / 3600) -
        x * (180 / π)| ≤ 1 / 72000000 := by
  have hdm : degDMS x =
      (((⌊x * (180 / π)⌋ : ℤ) : ℝ),
       ((⌊60 * Int.fract (x * (180 / π))⌋ : ℤ) : ℝ),
       round4 (60 * Int.fract (60 * Int.fract (x * (180 / π))))) := rfl
  rw [hdm]
  dsimp only
  set d : ℝ := x * (180 / π) with hd
  set m : ℝ := 60 * Int.fract d with hm
  set s0 : ℝ := 60 * Int.fract m with hs0
  have hfd : ((⌊d⌋ : ℤ) : ℝ) + Int.fract d = d := Int.floor_add_fract d
  have hfm : ((⌊m⌋ : ℤ) : ℝ) + Int.fract m = m := Int.floor_add_fract m
  have hmnn : (0 : ℝ) ≤ m := by
    rw [hm]
    have := Int.fract_nonneg d
    linarith
  have hs0nn : (0 : ℝ) ≤ s0 := by
    rw [hs0]
    have := Int.fract_nonneg m
    linarith
  refine ⟨rfl, ?_, ?_, ?_⟩
  · exact_mod_cast Int.floor_nonneg.mpr hmnn
  · rw [round4]
    have hr : (0 : ℤ) ≤ round (s0 * 10000) := by
      rw [round_eq]
      exact Int.floor_nonneg.mpr (by linarith)
    have : (0 : ℝ) ≤ ((round (s0 * 10000) : ℤ) : ℝ) := by exact_mod_cast hr
    linarith
  · have hexact : ((⌊d⌋ : ℤ) : ℝ) + ((⌊m⌋ : ℤ) : ℝ) / 60 + s0 / 3600 = d := by
      rw [hs0]
      linarith [hfd, hfm]
    have hr := round4_close s0
    rw [abs_le] at hr ⊢
    constructor <;> linarith [hexact, hr.1, hr.2]

end FloodTool
